import Mathlib

/-!
Verification of the Upstand Flask backend (server/app.py and server/teams.py)
against its natural-language specification.

The Python source is shallowly embedded: pure helper functions become Lean
functions, Firestore documents become association lists or structures, the
request context and external-service outcomes (Firebase verification, the
OpenAI call, Firestore writes) become explicit parameters, and Python
exceptions become Except values.  Machine arithmetic is exact (Python ints
are unbounded; float arithmetic on the small averages involved is modelled
with rationals).
-/

namespace Upstand

/-! ## Preliminaries: JSON-ish values, HTTP responses, Python string helpers -/

/-- A JSON-like value as produced by jsonify: enough structure for the
response bodies and document fields the claims are about. -/
inductive JVal where
  | str (s : String)
  | bool (b : Bool)
  | num (n : Int)
  deriving DecidableEq, BEq, Repr

/-- An HTTP response: a JSON object body (association list) and a status. -/
structure HttpResponse where
  body : List (String × JVal)
  status : Nat
  deriving DecidableEq, BEq, Repr

/-- Python str.lower (the source only lowercases ASCII text): lowercase
every character. -/
def pyLower (s : String) : String := String.mk (s.toList.map Char.toLower)

/-- Python `needle in hay` on strings: substring containment. -/
def pyContains (needle hay : String) : Bool :=
  decide (needle.toList <:+: hay.toList)

/-- Python truthiness of an optional string: None and the empty string are
falsy (the pattern `if not text:` in the source). -/
def pyFalsy (text : Option String) : Bool :=
  match text with
  | none => true
  | some s => s.isEmpty

/-- Association-list lookup, mirroring Python dict.get / Firestore field
access (first binding wins). -/
def alistGet {β : Type} (l : List (String × β)) (k : String) : Option β :=
  (l.find? (fun kv => kv.1 == k)).map (fun kv => kv.2)

/-- Association-list update, mirroring assignment of one key in a Python
dict / one field in a Firestore document: replace the first binding of the
key, or append a new binding. -/
def alistSet {β : Type} : List (String × β) → String → β → List (String × β)
  | [], k, v => [(k, v)]
  | kv :: rest, k, v =>
      if kv.1 == k then (k, v) :: rest else kv :: alistSet rest k v

/-! ## detect_blockers / detect_blockers_keyword (app.py lines 218-324) -/

/-- The keyword list of detect_blockers_keyword. -/
def blockerKeywords : List String :=
  ["blocker", "stuck", "impediment", "issue", "problem", "delay", "blocked"]

/-- One entry of the blockers list built by detect_blockers_keyword.  The
context is the original text argument (possibly None). -/
structure KwBlocker where
  keyword : String
  context : Option String
  severity : String
  deriving DecidableEq, BEq, Repr

/-- The dict returned by detect_blockers_keyword. -/
structure BlockerResult where
  has_blockers : Bool
  blockers : List KwBlocker
  severity : String
  blocker_count : Nat
  deriving DecidableEq, BEq, Repr

/-- detect_blockers_keyword(text): static keyword heuristic. -/
def detect_blockers_keyword (text : Option String) : BlockerResult :=
  let found := blockerKeywords.filter (fun kw => pyContains kw (pyLower (text.getD "")))
  { has_blockers := !found.isEmpty
    blockers := found.map (fun kw => { keyword := kw, context := text, severity := "medium" })
    severity := if found.isEmpty then "none" else "medium"
    blocker_count := found.length }

/-- One blocker object of the JSON the hosted LLM returns (fields may be
absent). -/
structure AIBlocker where
  keyword : Option String
  severity : Option String
  context : Option String
  suggestions : Option (List String)
  deriving DecidableEq, BEq, Repr

/-- The parsed JSON analysis the hosted LLM returns (fields may be absent). -/
structure AIAnalysis where
  blockers : Option (List AIBlocker)
  overall_severity : Option String
  sentiment : Option String
  analysis : Option String
  deriving DecidableEq, BEq, Repr

/-- Outcome of the OpenAI chat-completion call together with JSON parsing of
its reply: either some exception was raised, or a parsed analysis. -/
inductive AICallOutcome where
  | failure (message : String)
  | success (analysis : AIAnalysis)
  deriving DecidableEq, BEq, Repr

/-- One entry of the merged blockers list built in the AI branch of
detect_blockers.  Keyword-detected entries carry no ai_suggestions key. -/
structure EnhancedBlocker where
  keyword : String
  severity : String
  context : Option String
  ai_suggestions : Option (List String)
  detection_method : String
  deriving DecidableEq, BEq, Repr

/-- The enhanced dict returned by the AI branch of detect_blockers. -/
structure EnhancedResult where
  has_blockers : Bool
  blockers : List EnhancedBlocker
  severity : String
  blocker_count : Nat
  ai_analysis : String
  sentiment : String
  sentiment_score : Int
  deriving DecidableEq, BEq, Repr

/-- detect_blockers returns either the keyword dict or the enhanced dict. -/
inductive DetectBlockersResult where
  | basic (r : BlockerResult)
  | enhanced (r : EnhancedResult)
  deriving DecidableEq, BEq, Repr

/-- sentiment_to_score (app.py lines 209-215). -/
def sentiment_to_score (sentiment : String) : Int :=
  if sentiment = "positive" then 1
  else if sentiment = "negative" then -1
  else 0

/-- The second merge loop of detect_blockers: append each keyword-detected
blocker unless a blocker whose keyword contains it (case-insensitively) is
already in the accumulated list. -/
def mergeKeywordBlockers (enhanced : List EnhancedBlocker) :
    List KwBlocker → List EnhancedBlocker
  | [] => enhanced
  | kb :: rest =>
      let existing := enhanced.any (fun ab => pyContains (pyLower kb.keyword) (pyLower ab.keyword))
      mergeKeywordBlockers
        (if existing then enhanced
         else enhanced ++ [{ keyword := kb.keyword, severity := kb.severity,
                             context := kb.context, ai_suggestions := none,
                             detection_method := "keyword" }]) rest

/-- detect_blockers(text, use_ai).  The configuration of OPENAI_API_KEY and
the outcome of the hosted-LLM call are explicit parameters. -/
def detect_blockers (text : Option String) (use_ai : Bool)
    (apiKeyConfigured : Bool) (aiCall : AICallOutcome) : DetectBlockersResult :=
  if pyFalsy text then
    .basic { has_blockers := false, blockers := [], severity := "none", blocker_count := 0 }
  else
    let t := text.getD ""
    let keyword_result := detect_blockers_keyword text
    if !use_ai || !apiKeyConfigured then .basic keyword_result
    else
      match aiCall with
      | .failure _ => .basic keyword_result
      | .success ai =>
          let aiBlockers := (ai.blockers.getD []).map (fun b =>
            ({ keyword := b.keyword.getD ""
               severity := b.severity.getD "medium"
               context := some (b.context.getD (t.take 100))
               ai_suggestions := some (b.suggestions.getD [])
               detection_method := "ai" } : EnhancedBlocker))
          let enhanced := mergeKeywordBlockers aiBlockers keyword_result.blockers
          .enhanced
            { has_blockers := decide (0 < enhanced.length)
              blockers := enhanced
              severity := ai.overall_severity.getD keyword_result.severity
              blocker_count := enhanced.length
              ai_analysis := ai.analysis.getD ""
              sentiment := ai.sentiment.getD "neutral"
              sentiment_score := sentiment_to_score (ai.sentiment.getD "neutral") }

/-! ## Python round() on the rationals -/

/-- Bridge between the executable Batteries floor on the rationals and the
Mathlib floor. -/
theorem ratFloor_eq_intFloor (q : ℚ) : (Rat.floor q : ℤ) = ⌊q⌋ := by
  rw [Rat.floor_def', Rat.floor_def]

/-- Round a rational to the nearest integer, ties to even: the rounding mode
of Python round(). -/
def roundHalfEven (m : ℚ) : ℤ :=
  if m - (Rat.floor m : ℚ) < 1/2 then Rat.floor m
  else if (1:ℚ)/2 < m - (Rat.floor m : ℚ) then Rat.floor m + 1
  else if Rat.floor m % 2 = 0 then Rat.floor m else Rat.floor m + 1

/-- Python round(q, n) modelled on the rationals. -/
def pyRound (q : ℚ) (n : ℕ) : ℚ := (roundHalfEven (q * 10^n) : ℚ) / 10^n

theorem roundHalfEven_intCast (m : ℤ) : roundHalfEven (m : ℚ) = m := by
  unfold roundHalfEven
  rw [ratFloor_eq_intFloor, Int.floor_intCast]
  norm_num

/-- Rounding a rational that is an integer multiple of 10^(-n) to n digits
returns it unchanged. -/
theorem pyRound_int (m : ℤ) (n : ℕ) : pyRound ((m : ℚ) / (10:ℚ)^n) n = (m:ℚ)/(10:ℚ)^n := by
  have hpow : ((10:ℚ)^n) ≠ 0 := by positivity
  unfold pyRound
  rw [div_mul_cancel₀ _ hpow, roundHalfEven_intCast]

theorem roundHalfEven_le (m : ℚ) (c : ℤ) (h : m ≤ c) : roundHalfEven m ≤ c := by
  unfold roundHalfEven
  rw [ratFloor_eq_intFloor]
  have hfl : ((⌊m⌋ : ℚ)) ≤ m := Int.floor_le _
  have hflc : ⌊m⌋ ≤ c := by
    have h2 := Int.floor_le_floor h
    rwa [Int.floor_intCast] at h2
  by_cases h1 : m - (⌊m⌋ : ℚ) < 1/2
  · simp only [if_pos h1]; exact hflc
  · have hge : (1:ℚ)/2 ≤ m - ⌊m⌋ := not_lt.mp h1
    have hle : ⌊m⌋ + 1 ≤ c := by
      by_contra hcon
      push_neg at hcon
      have : (c : ℚ) + 1 ≤ (⌊m⌋ : ℚ) + 1 := by exact_mod_cast hcon
      linarith
    simp only [if_neg h1]
    by_cases h2 : (1:ℚ)/2 < m - ⌊m⌋
    · simp only [if_pos h2]; exact hle
    · simp only [if_neg h2]
      by_cases h3 : ⌊m⌋ % 2 = 0
      · simp only [if_pos h3]; exact hflc
      · simp only [if_neg h3]; exact hle

/-- Python round(q, 2) of a value at most 0.9 is at most 0.9. -/
theorem pyRound_two_le_nine_tenths (q : ℚ) (h : q ≤ 9/10) : pyRound q 2 ≤ 9/10 := by
  unfold pyRound
  have h90 : q * (10:ℚ)^2 ≤ ((90:ℤ):ℚ) := by push_cast; nlinarith
  have hb := roundHalfEven_le (q * (10:ℚ)^2) 90 h90
  have hc : ((roundHalfEven (q * (10:ℚ)^2) : ℚ)) ≤ 90 := by exact_mod_cast hb
  rw [div_le_iff₀ (by norm_num : (0:ℚ) < 10^2)]
  norm_num at hc ⊢
  linarith

/-- A list filtered by a predicate is nonempty exactly when some element
satisfies the predicate. -/
theorem bang_isEmpty_filter {α : Type} (l : List α) (p : α → Bool) :
    (!(l.filter p).isEmpty) = l.any p := by
  induction l with
  | nil => rfl
  | cons a t ih => cases h : p a <;> simp [List.filter_cons, h, List.any_cons, ih]

/-! ## C1: detect_blockers falls back to the keyword heuristic -/

/-- C1: for every standup text, when AI analysis is disabled, no
OPENAI_API_KEY is configured, or the hosted-LLM call raises, detect_blockers
returns the static keyword heuristic detect_blockers_keyword(text), whose
has_blockers is true iff one of the seven keywords occurs in the lowercased
text, whose blocker_count is the number of distinct matched keywords, and
whose severity is "medium" if any matched else "none"; empty or None text
yields has_blockers false, empty blockers, severity "none", count 0. -/
theorem detect_blockers_fallback_spec (text : Option String)
    (use_ai apiKeyConfigured : Bool) (aiCall : AICallOutcome)
    (hfb : use_ai = false ∨ apiKeyConfigured = false ∨ ∃ e, aiCall = .failure e) :
    (pyFalsy text = true →
        detect_blockers text use_ai apiKeyConfigured aiCall =
          .basic { has_blockers := false, blockers := [], severity := "none", blocker_count := 0 }) ∧
    (pyFalsy text = false →
        detect_blockers text use_ai apiKeyConfigured aiCall =
          .basic (detect_blockers_keyword text)) ∧
    ((detect_blockers_keyword text).has_blockers =
        (["blocker", "stuck", "impediment", "issue", "problem", "delay", "blocked"] : List String).any
          (fun kw => pyContains kw (pyLower (text.getD "")))) ∧
    ((detect_blockers_keyword text).blocker_count =
        ((["blocker", "stuck", "impediment", "issue", "problem", "delay", "blocked"] : List String).filter
          (fun kw => pyContains kw (pyLower (text.getD "")))).length) ∧
    ((detect_blockers_keyword text).severity =
        if (["blocker", "stuck", "impediment", "issue", "problem", "delay", "blocked"] : List String).any
            (fun kw => pyContains kw (pyLower (text.getD "")))
        then "medium" else "none") := by
  refine ⟨?_, ?_, ?_, ?_, ?_⟩
  · intro h
    simp [detect_blockers, h]
  · intro h
    rcases hfb with h1 | h1 | ⟨e, h1⟩
    · simp [detect_blockers, h, h1]
    · simp [detect_blockers, h, h1]
    · cases use_ai <;> cases apiKeyConfigured <;> simp [detect_blockers, h, h1]
  · rw [show (["blocker", "stuck", "impediment", "issue", "problem", "delay", "blocked"] : List String)
        = blockerKeywords from rfl]
    rw [← bang_isEmpty_filter]
    rfl
  · rfl
  · rw [show (["blocker", "stuck", "impediment", "issue", "problem", "delay", "blocked"] : List String)
        = blockerKeywords from rfl]
    rw [← bang_isEmpty_filter]
    cases h : ((blockerKeywords.filter (fun kw => pyContains kw (pyLower (text.getD "")))).isEmpty) <;>
      simp [detect_blockers_keyword, h]

/-- Witness for C1 at a concrete standup text with the AI call failing. -/
theorem detect_blockers_fallback_spec_witness :
    detect_blockers (some "stuck on an issue") true true (.failure "boom") =
      .basic (detect_blockers_keyword (some "stuck on an issue")) :=
  (detect_blockers_fallback_spec (some "stuck on an issue") true true (.failure "boom")
      (Or.inr (Or.inr ⟨"boom", rfl⟩))).2.1 (by decide)

/-! ## C2: track_user_action never fails the surrounding request
(app.py lines 156-184) -/

/-- The request-context attributes track_user_action reads: getattr defaults
apply when the attribute is absent, headers.get defaults when the header is
absent. -/
structure RequestContext where
  user_id : Option String
  company_id : Option String
  user_agent : Option String
  remote_addr : String
  deriving DecidableEq, BEq, Repr

/-- The analytics document stored in the user_analytics collection. -/
structure AnalyticsEvent where
  user_id : String
  company_id : String
  team_id : Option String
  action : String
  metadata : List (String × JVal)
  timestamp : String
  user_agent : String
  ip_address : String
  deriving DecidableEq, BEq, Repr

/-- The Firestore handle: the stored analytics documents, plus a flag saying
whether the next add() raises (network failure, permissions, ...). -/
structure FirestoreDB where
  user_analytics : List AnalyticsEvent
  addFails : Bool
  deriving DecidableEq, BEq, Repr

/-- Firestore add on the user_analytics collection: appends the document or
raises. -/
def firestoreAddAnalytics (db : FirestoreDB) (ev : AnalyticsEvent) :
    Except String FirestoreDB :=
  if db.addFails then .error "firestore add failed"
  else .ok { db with user_analytics := db.user_analytics ++ [ev] }

/-- track_user_action(action, metadata, team_id): the whole body is inside
try/except; the global db may be None. -/
def track_user_action (db : Option FirestoreDB) (ctx : RequestContext)
    (now : String) (action : String) (metadata : Option (List (String × JVal)))
    (team_id : Option String) : Except String (Option FirestoreDB) :=
  let body : Except String (Option FirestoreDB) :=
    match db with
    | none => .ok none
    | some d =>
        let analytics_data : AnalyticsEvent :=
          { user_id := ctx.user_id.getD "anonymous"
            company_id := ctx.company_id.getD "default"
            team_id := team_id
            action := action
            metadata := metadata.getD []
            timestamp := now
            user_agent := ctx.user_agent.getD ""
            ip_address := ctx.remote_addr }
        match firestoreAddAnalytics d analytics_data with
        | .ok d2 => .ok (some d2)
        | .error e => .error e
  match body with
  | .ok r => .ok r
  | .error _ => .ok db

/-- C2: track_user_action never propagates an exception: with db None it
returns without effect, and when the Firestore write raises the exception is
swallowed and the stored analytics are unchanged. -/
theorem track_user_action_never_raises (db : Option FirestoreDB)
    (ctx : RequestContext) (now action : String)
    (metadata : Option (List (String × JVal))) (team_id : Option String) :
    (∀ e, track_user_action db ctx now action metadata team_id ≠ .error e) ∧
    (track_user_action none ctx now action metadata team_id = .ok none) ∧
    (∀ d : FirestoreDB, d.addFails = true →
        track_user_action (some d) ctx now action metadata team_id = .ok (some d)) := by
  refine ⟨?_, rfl, ?_⟩
  · intro e
    cases db with
    | none => simp [track_user_action]
    | some d =>
        cases h : d.addFails <;>
          simp [track_user_action, firestoreAddAnalytics, h]
  · intro d hd
    simp [track_user_action, firestoreAddAnalytics, hd]

/-- Witness for C2: a failing Firestore write is swallowed. -/
theorem track_user_action_never_raises_witness :
    track_user_action (some ⟨[], true⟩) ⟨none, none, none, ""⟩ "t0" "create_team" none none =
      .ok (some ⟨[], true⟩) :=
  (track_user_action_never_raises (some ⟨[], true⟩) ⟨none, none, none, ""⟩ "t0"
      "create_team" none none).2.2 ⟨[], true⟩ rfl

/-! ## analyze_sentiment (app.py lines 439-488) -/

/-- The positive word list of analyze_sentiment. -/
def positive_words : List String :=
  ["good", "great", "excellent", "finished", "completed", "success", "happy", "excited",
   "progress", "amazing", "awesome", "fantastic", "wonderful", "perfect", "brilliant",
   "outstanding", "effective", "smooth", "easy", "helpful", "productive", "efficient",
   "satisfied", "pleased", "thrilled", "love", "enjoy", "accomplished", "achieved",
   "delivered", "resolved", "fixed", "improved", "optimized"]

/-- The negative word list of analyze_sentiment. -/
def negative_words : List String :=
  ["bad", "terrible", "stuck", "blocked", "failed", "problem", "frustrated", "delayed",
   "difficult", "sad", "stupid", "awful", "horrible", "disappointing", "annoying",
   "annoyed", "angry", "upset", "worried", "concerned", "stressed", "overwhelmed",
   "confused", "lost", "struggling", "issues", "broken", "bugs", "errors", "challenges",
   "obstacles", "setbacks", "roadblocks", "impediments", "slow", "sluggish",
   "inefficient", "waste", "wasted", "useless", "pointless", "meaningless", "disaster",
   "mess", "chaos", "nightmare", "crash", "fail", "failure", "wrong", "incorrect",
   "hate", "dislike", "regret", "mistake", "error", "fault", "blame", "critical",
   "urgent", "crisis"]

/-- The neutral word list of analyze_sentiment. -/
def neutral_words : List String :=
  ["working", "continuing", "planned", "meeting", "discussing", "reviewing", "analyzing",
   "testing", "developing", "coding", "implementing", "designing", "researching",
   "investigating", "exploring", "considering", "evaluating", "assessing", "monitoring",
   "tracking", "updating", "preparing"]

/-- Worker for pySplitWhitespace: cur holds the reversed characters of the
word being read. -/
def splitWsAux (cur : List Char) : List Char → List String
  | [] => if cur.isEmpty then [] else [String.mk cur.reverse]
  | c :: rest =>
      if c.isWhitespace then
        if cur.isEmpty then splitWsAux [] rest
        else String.mk cur.reverse :: splitWsAux [] rest
      else splitWsAux (c :: cur) rest

/-- Python str.split() with no argument: split on whitespace runs, dropping
empty pieces. -/
def pySplitWhitespace (s : String) : List String :=
  splitWsAux [] s.toList

/-- The word list text.lower().split() of analyze_sentiment. -/
def sentimentTokens (text : Option String) : List String :=
  pySplitWhitespace (pyLower (text.getD ""))

/-- positive_count of analyze_sentiment. -/
def positiveCount (text : Option String) : Nat :=
  ((sentimentTokens text).filter (fun w => positive_words.contains w)).length

/-- negative_count of analyze_sentiment. -/
def negativeCount (text : Option String) : Nat :=
  ((sentimentTokens text).filter (fun w => negative_words.contains w)).length

/-- neutral_count of analyze_sentiment. -/
def neutralCount (text : Option String) : Nat :=
  ((sentimentTokens text).filter (fun w => neutral_words.contains w)).length

/-- The dict returned by analyze_sentiment. -/
structure SentimentResult where
  sentiment : String
  confidence : ℚ
  explanation : String
  deriving DecidableEq, BEq, Repr

/-- analyze_sentiment(text): keyword sentiment with confidence scores. -/
def analyze_sentiment (text : Option String) : SentimentResult :=
  if pyFalsy text then
    { sentiment := "neutral", confidence := 0, explanation := "No text provided" }
  else
    let words := sentimentTokens text
    let positive_count := positiveCount text
    let negative_count := negativeCount text
    let neutral_count := neutralCount text
    if positive_count + negative_count + neutral_count = 0 then
      { sentiment := "neutral", confidence := 3/10,
        explanation := "No sentiment indicators found" }
    else
      let expl := s!"Found {positive_count} positive, {negative_count} negative, {neutral_count} neutral indicators"
      if negative_count < positive_count then
        { sentiment := "positive"
          confidence := pyRound (min (9/10)
            (1/2 + ((positive_count : ℚ) - negative_count) / words.length)) 2
          explanation := expl }
      else if positive_count < negative_count then
        { sentiment := "negative"
          confidence := pyRound (min (9/10)
            (1/2 + ((negative_count : ℚ) - positive_count) / words.length)) 2
          explanation := expl }
      else
        { sentiment := "neutral"
          confidence := pyRound (min (4/5)
            (2/5 + (neutral_count : ℚ) / words.length)) 2
          explanation := expl }

/-! ## C7: the analyze_sentiment contract -/

/-- Falsy text tokenises to the empty word list. -/
theorem sentimentTokens_falsy (text : Option String) (h : pyFalsy text = true) :
    sentimentTokens text = [] := by
  cases text with
  | none => rfl
  | some s =>
      simp only [pyFalsy] at h
      have hs : s = "" := by
        cases s with
        | mk l =>
            cases l with
            | nil => rfl
            | cons c t =>
                exfalso
                simp [String.isEmpty, String.endPos, String.utf8ByteSize] at h
                have hpos := Char.utf8Size_pos c
                have h2 : String.utf8Len t + c.utf8Size = 0 :=
                  congrArg String.Pos.byteIdx h
                omega
      subst hs
      rfl

/-- C7: analyze_sentiment returns "positive" exactly when the positive word
count strictly exceeds the negative one, "negative" exactly when the
negative count strictly exceeds the positive one, and "neutral" otherwise;
confidence never exceeds 0.9; empty or None text yields neutral with
confidence 0.0; text with no sentiment indicator yields neutral with
confidence 0.3. -/
theorem analyze_sentiment_spec (text : Option String) :
    ((analyze_sentiment text).sentiment = "positive" ↔
        negativeCount text < positiveCount text) ∧
    ((analyze_sentiment text).sentiment = "negative" ↔
        positiveCount text < negativeCount text) ∧
    ((analyze_sentiment text).sentiment = "neutral" ↔
        positiveCount text = negativeCount text) ∧
    ((analyze_sentiment text).confidence ≤ 9/10) ∧
    (pyFalsy text = true →
        analyze_sentiment text =
          { sentiment := "neutral", confidence := 0, explanation := "No text provided" }) ∧
    (pyFalsy text = false →
        positiveCount text + negativeCount text + neutralCount text = 0 →
        analyze_sentiment text =
          { sentiment := "neutral", confidence := 3/10,
            explanation := "No sentiment indicators found" }) := by
  by_cases hf : pyFalsy text = true
  · have htok : sentimentTokens text = [] := sentimentTokens_falsy text hf
    have hp : positiveCount text = 0 := by simp [positiveCount, htok]
    have hn : negativeCount text = 0 := by simp [negativeCount, htok]
    have hres : analyze_sentiment text =
        { sentiment := "neutral", confidence := 0, explanation := "No text provided" } := by
      simp [analyze_sentiment, hf]
    refine ⟨?_, ?_, ?_, ?_, fun _ => hres, ?_⟩
    · simp [hres, hp, hn]
    · simp [hres, hp, hn]
    · simp [hres, hp, hn]
    · rw [hres]
      norm_num
    · intro h6
      rw [hf] at h6
      exact absurd h6 (by simp)
  · have hf' : pyFalsy text = false := by
      cases h : pyFalsy text
      · rfl
      · exact absurd h hf
    by_cases h0 : positiveCount text + negativeCount text + neutralCount text = 0
    · have hp : positiveCount text = 0 := by omega
      have hn : negativeCount text = 0 := by omega
      have hres : analyze_sentiment text =
          { sentiment := "neutral", confidence := 3/10,
            explanation := "No sentiment indicators found" } := by
        simp [analyze_sentiment, hf', h0]
      refine ⟨?_, ?_, ?_, ?_, ?_, fun _ _ => hres⟩
      · simp [hres, hp, hn]
      · simp [hres, hp, hn]
      · simp [hres, hp, hn]
      · rw [hres]
        norm_num
      · intro h5
        rw [hf'] at h5
        exact absurd h5 (by simp)
    · rcases Nat.lt_trichotomy (negativeCount text) (positiveCount text) with hlt | heq | hgt
      · have hsent : (analyze_sentiment text).sentiment = "positive" := by
          simp [analyze_sentiment, hf', h0, hlt]
        have hconf : (analyze_sentiment text).confidence =
            pyRound (min (9/10) (1/2 +
              ((positiveCount text : ℚ) - negativeCount text) / (sentimentTokens text).length)) 2 := by
          simp [analyze_sentiment, hf', h0, hlt]
        refine ⟨?_, ?_, ?_, ?_, ?_, ?_⟩
        · simp [hsent, hlt]
        · simp [hsent]
          omega
        · simp [hsent]
          omega
        · rw [hconf]
          exact pyRound_two_le_nine_tenths _ (min_le_left _ _)
        · intro h5
          rw [hf'] at h5
          exact absurd h5 (by simp)
        · intro _ habs
          exact absurd habs h0
      · have hnlt : ¬ negativeCount text < positiveCount text := by omega
        have hnlt' : ¬ positiveCount text < negativeCount text := by omega
        have hsent : (analyze_sentiment text).sentiment = "neutral" := by
          simp [analyze_sentiment, hf', h0, hnlt, hnlt']
        have hconf : (analyze_sentiment text).confidence =
            pyRound (min (4/5) (2/5 +
              (neutralCount text : ℚ) / (sentimentTokens text).length)) 2 := by
          simp [analyze_sentiment, hf', h0, hnlt, hnlt']
        refine ⟨?_, ?_, ?_, ?_, ?_, ?_⟩
        · simp [hsent]
          omega
        · simp [hsent]
          omega
        · simp [hsent, heq]
        · rw [hconf]
          refine pyRound_two_le_nine_tenths _ (le_trans (min_le_left _ _) (by norm_num))
        · intro h5
          rw [hf'] at h5
          exact absurd h5 (by simp)
        · intro _ habs
          exact absurd habs h0
      · have hnlt : ¬ negativeCount text < positiveCount text := by omega
        have hsent : (analyze_sentiment text).sentiment = "negative" := by
          simp [analyze_sentiment, hf', h0, hnlt, hgt]
        have hconf : (analyze_sentiment text).confidence =
            pyRound (min (9/10) (1/2 +
              ((negativeCount text : ℚ) - positiveCount text) / (sentimentTokens text).length)) 2 := by
          simp [analyze_sentiment, hf', h0, hnlt, hgt]
        refine ⟨?_, ?_, ?_, ?_, ?_, ?_⟩
        · simp [hsent]
          omega
        · simp [hsent, hgt]
        · simp [hsent]
          omega
        · rw [hconf]
          exact pyRound_two_le_nine_tenths _ (min_le_left _ _)
        · intro h5
          rw [hf'] at h5
          exact absurd h5 (by simp)
        · intro _ habs
          exact absurd habs h0

/-- Witness for C7: the falsy and no-indicator branches at concrete inputs. -/
theorem analyze_sentiment_spec_witness :
    analyze_sentiment none =
      { sentiment := "neutral", confidence := 0, explanation := "No text provided" } :=
  (analyze_sentiment_spec none).2.2.2.2.1 rfl

/-! ## Sprint metrics (complete_sprint, app.py lines 1543-1633, and
get_sprints, app.py lines 1371-1454) -/

/-- The fields of a task document that the sprint metric loops read:
estimate and status may be absent, with defaults 1 and "todo". -/
structure TaskDoc where
  estimate : Option ℚ
  status : Option String
  deriving DecidableEq, Repr

/-- Accumulator of the per-task loop shared by complete_sprint and
get_sprints. -/
structure MetricsAcc where
  total_story_points : ℚ
  completed_story_points : ℚ
  todo_count : Nat
  in_progress_count : Nat
  done_count : Nat
  deriving DecidableEq, Repr

/-- One iteration of the task loop: add the story points to the total,
bump the status counter when the status is a known one, and add the story
points to the completed total when the status is done. -/
def metricsStep (acc : MetricsAcc) (task : TaskDoc) : MetricsAcc :=
  let story_points := task.estimate.getD 1
  let status := task.status.getD "todo"
  let acc1 := { acc with total_story_points := acc.total_story_points + story_points }
  let acc2 :=
    if status = "todo" then { acc1 with todo_count := acc1.todo_count + 1 }
    else if status = "in_progress" then { acc1 with in_progress_count := acc1.in_progress_count + 1 }
    else if status = "done" then { acc1 with done_count := acc1.done_count + 1 }
    else acc1
  if status = "done" then
    { acc2 with completed_story_points := acc2.completed_story_points + story_points }
  else acc2

/-- The task loop of both endpoints. -/
def sprintMetrics (tasks : List TaskDoc) : MetricsAcc :=
  tasks.foldl metricsStep ⟨0, 0, 0, 0, 0⟩

/-- completion_percentage with its zero guard, as computed by both
endpoints. -/
def completionPercentage (acc : MetricsAcc) : ℚ :=
  if 0 < acc.total_story_points then
    acc.completed_story_points / acc.total_story_points * 100
  else 0

/-- The final_analytics dict stored by complete_sprint. -/
structure SprintFinalAnalytics where
  total_story_points : ℚ
  completed_story_points : ℚ
  completion_percentage : ℚ
  todo_count : Nat
  in_progress_count : Nat
  done_count : Nat
  total_tasks : Nat
  velocity : ℚ
  deriving DecidableEq, Repr

/-- The analytics dict attached to each sprint by get_sprints (no velocity
field). -/
structure SprintListAnalytics where
  total_story_points : ℚ
  completed_story_points : ℚ
  completion_percentage : ℚ
  todo_count : Nat
  in_progress_count : Nat
  done_count : Nat
  total_tasks : Nat
  deriving DecidableEq, Repr

/-- complete_sprint: the final_analytics written into the sprint document. -/
def complete_sprint_final_analytics (tasks : List TaskDoc) : SprintFinalAnalytics :=
  let m := sprintMetrics tasks
  { total_story_points := m.total_story_points
    completed_story_points := m.completed_story_points
    completion_percentage := pyRound (completionPercentage m) 1
    todo_count := m.todo_count
    in_progress_count := m.in_progress_count
    done_count := m.done_count
    total_tasks := tasks.length
    velocity := m.completed_story_points }

/-- get_sprints: the analytics attached to one listed sprint. -/
def get_sprints_analytics (tasks : List TaskDoc) : SprintListAnalytics :=
  let m := sprintMetrics tasks
  { total_story_points := m.total_story_points
    completed_story_points := m.completed_story_points
    completion_percentage := pyRound (completionPercentage m) 1
    todo_count := m.todo_count
    in_progress_count := m.in_progress_count
    done_count := m.done_count
    total_tasks := tasks.length }

/-- Total story points as the claim words them: the sum over all tasks of
the estimate, defaulting to 1. -/
def specTotalPoints (tasks : List TaskDoc) : ℚ :=
  (tasks.map (fun t => t.estimate.getD 1)).sum

/-- Completed story points as the claim words them: the sum of estimates of
tasks whose status is done. -/
def specCompletedPoints (tasks : List TaskDoc) : ℚ :=
  ((tasks.filter (fun t => decide (t.status.getD "todo" = "done"))).map
    (fun t => t.estimate.getD 1)).sum

/-- The loop totals agree with the direct sums, for any starting
accumulator. -/
theorem sprintMetrics_foldl_sums (tasks : List TaskDoc) (acc : MetricsAcc) :
    (tasks.foldl metricsStep acc).total_story_points =
        acc.total_story_points + specTotalPoints tasks ∧
    (tasks.foldl metricsStep acc).completed_story_points =
        acc.completed_story_points + specCompletedPoints tasks := by
  induction tasks generalizing acc with
  | nil => simp [specTotalPoints, specCompletedPoints]
  | cons t rest ih =>
      have hstep_total : (metricsStep acc t).total_story_points =
          acc.total_story_points + t.estimate.getD 1 := by
        unfold metricsStep
        by_cases h1 : t.status.getD "todo" = "todo" <;>
          by_cases h2 : t.status.getD "todo" = "in_progress" <;>
            by_cases h3 : t.status.getD "todo" = "done" <;>
              simp [h1, h2, h3]
      have hstep_done : (metricsStep acc t).completed_story_points =
          acc.completed_story_points +
            (if t.status.getD "todo" = "done" then t.estimate.getD 1 else 0) := by
        unfold metricsStep
        by_cases h1 : t.status.getD "todo" = "todo" <;>
          by_cases h2 : t.status.getD "todo" = "in_progress" <;>
            by_cases h3 : t.status.getD "todo" = "done" <;>
              simp [h1, h2, h3]
      rcases ih (metricsStep acc t) with ⟨iht, ihc⟩
      constructor
      · rw [List.foldl_cons, iht, hstep_total]
        simp [specTotalPoints]
        ring
      · rw [List.foldl_cons, ihc, hstep_done]
        by_cases h3 : t.status.getD "todo" = "done" <;>
          simp [specCompletedPoints, List.filter_cons, h3, add_assoc, add_comm]

/-- C5: the completion percentage stored when a sprint is completed (and
shown when sprints are listed) is completed points divided by total points
times 100 rounded to one decimal, where total sums estimates defaulting to
1 and completed sums estimates of done tasks; a zero total yields 0 without
dividing; the stored velocity is the completed points. -/
theorem sprint_completion_spec (tasks : List TaskDoc) :
    ((complete_sprint_final_analytics tasks).total_story_points = specTotalPoints tasks) ∧
    ((complete_sprint_final_analytics tasks).completed_story_points = specCompletedPoints tasks) ∧
    (0 < specTotalPoints tasks →
        (complete_sprint_final_analytics tasks).completion_percentage =
          pyRound (specCompletedPoints tasks / specTotalPoints tasks * 100) 1) ∧
    (specTotalPoints tasks = 0 →
        (complete_sprint_final_analytics tasks).completion_percentage = 0) ∧
    ((complete_sprint_final_analytics tasks).velocity = specCompletedPoints tasks) ∧
    ((get_sprints_analytics tasks).completion_percentage =
        (complete_sprint_final_analytics tasks).completion_percentage) := by
  have hsum := sprintMetrics_foldl_sums tasks ⟨0, 0, 0, 0, 0⟩
  have htot : (sprintMetrics tasks).total_story_points = specTotalPoints tasks := by
    have := hsum.1
    simpa [sprintMetrics] using this
  have hcomp : (sprintMetrics tasks).completed_story_points = specCompletedPoints tasks := by
    have := hsum.2
    simpa [sprintMetrics] using this
  refine ⟨?_, ?_, ?_, ?_, ?_, ?_⟩
  · simp [complete_sprint_final_analytics, htot]
  · simp [complete_sprint_final_analytics, hcomp]
  · intro hpos
    simp [complete_sprint_final_analytics, completionPercentage, htot, hcomp, hpos]
  · intro hzero
    have hnpos : ¬ 0 < (sprintMetrics tasks).total_story_points := by
      rw [htot, hzero]
      exact lt_irrefl 0
    simp only [complete_sprint_final_analytics, completionPercentage, if_neg hnpos]
    have h0 := pyRound_int 0 1
    norm_num at h0
    exact h0
  · simp [complete_sprint_final_analytics, hcomp]
  · rfl

/-- Witness for C5 at a two-task sprint with one done task. -/
theorem sprint_completion_spec_witness :
    (complete_sprint_final_analytics [⟨some 3, some "done"⟩, ⟨none, none⟩]).completion_percentage =
      pyRound (specCompletedPoints [⟨some 3, some "done"⟩, ⟨none, none⟩] /
        specTotalPoints [⟨some 3, some "done"⟩, ⟨none, none⟩] * 100) 1 :=
  (sprint_completion_spec [⟨some 3, some "done"⟩, ⟨none, none⟩]).2.2.1
    (by norm_num [specTotalPoints])

/-! ## C6: the two average-velocity computations
(get_team_velocity, app.py lines 2235-2282; get_productivity_metrics,
app.py lines 2427-2513) -/

/-- The one field of a completed sprint document the two endpoints read:
final_analytics velocity, absent fields defaulting to 0. -/
structure SprintDoc where
  velocity : Option ℚ
  deriving DecidableEq, Repr

/-- statistics.mean. -/
def pyMean (xs : List ℚ) : ℚ := xs.sum / xs.length

/-- get_team_velocity: collect each velocity (default 0), keep the strictly
positive ones, average them with statistics.mean (0 when none), round to
one decimal. -/
def team_velocity_average (sprints : List SprintDoc) : ℚ :=
  pyRound
    (if ((sprints.map (fun s => s.velocity.getD 0)).filter (fun v => decide (0 < v))).isEmpty
     then 0
     else pyMean ((sprints.map (fun s => s.velocity.getD 0)).filter (fun v => decide (0 < v)))) 1

/-- get_productivity_metrics: total velocity over the number of completed
sprints (0 when there are none), rounded to one decimal. -/
def productivity_average_velocity (sprints : List SprintDoc) : ℚ :=
  pyRound
    (if sprints.isEmpty then 0
     else (sprints.map (fun s => s.velocity.getD 0)).sum / sprints.length) 1

/-- Counterexample to C6: on the same two completed sprints with stored
velocities 4 and 0, get_team_velocity reports average 4 (it drops the
zero-velocity sprint before averaging) while get_productivity_metrics
reports 2 (it divides the total by all completed sprints). -/
theorem velocity_average_mismatch :
    team_velocity_average [⟨some 4⟩, ⟨some 0⟩] ≠
      productivity_average_velocity [⟨some 4⟩, ⟨some 0⟩] := by
  have h4 := pyRound_int 40 1
  have h2 := pyRound_int 20 1
  norm_num at h4 h2
  simp only [team_velocity_average, productivity_average_velocity, pyMean, List.map,
    Option.getD, List.filter, List.sum, List.length, List.isEmpty]
  norm_num
  rw [h4, h2]
  norm_num

/-- C6 amended: when every completed sprint in the collection has strictly
positive stored velocity (so the positivity filter of get_team_velocity
keeps every sprint), the two endpoints report the same average. -/
theorem velocity_average_agree (sprints : List SprintDoc)
    (h : ∀ s ∈ sprints, 0 < s.velocity.getD 0) :
    team_velocity_average sprints = productivity_average_velocity sprints := by
  have hfilter : ((sprints.map (fun s => s.velocity.getD 0)).filter
      (fun v => decide (0 < v))) = sprints.map (fun s => s.velocity.getD 0) := by
    apply List.filter_eq_self.mpr
    intro v hv
    rcases List.mem_map.mp hv with ⟨s, hs, hsv⟩
    exact decide_eq_true (hsv ▸ h s hs)
  unfold team_velocity_average productivity_average_velocity
  rw [hfilter]
  cases hs : sprints with
  | nil => simp [pyMean]
  | cons a t =>
      have hne : ((a :: t).map (fun s => s.velocity.getD 0)).isEmpty = false := by
        simp
      have hne2 : (a :: t).isEmpty = false := by simp
      rw [hne, hne2]
      simp only [pyMean, Bool.false_eq_true, if_false, List.length_map]

/-- Witness for the amended C6 on two sprints with positive velocities. -/
theorem velocity_average_agree_witness :
    team_velocity_average [⟨some 2⟩, ⟨some 3⟩] =
      productivity_average_velocity [⟨some 2⟩, ⟨some 3⟩] :=
  velocity_average_agree [⟨some 2⟩, ⟨some 3⟩] (by
    intro s hs
    simp only [List.mem_cons, List.not_mem_nil, or_false] at hs
    rcases hs with rfl | rfl <;> norm_num)

/-! ## C4: the require_auth decorator (app.py lines 187-205) -/

/-- The request headers require_auth reads. -/
structure AuthRequest where
  authorization : Option String
  x_company_id : Option String
  deriving DecidableEq, Repr

/-- The attributes require_auth attaches to the request before the handler
runs. -/
structure RequestAuthContext where
  user_id : String
  user_name : String
  user_email : String
  company_id : String
  deriving DecidableEq, Repr

/-- Strip the Bearer scheme from the Authorization header value. -/
def stripBearer (tok : String) : String :=
  if tok.startsWith "Bearer " then tok.drop 7 else tok

/-- Outcome of a request to a require_auth-wrapped route: either a response
produced without running the handler, or the handler result with the
attached context. -/
inductive AuthOutcome (α : Type) where
  | rejected (resp : HttpResponse)
  | handled (ctx : RequestAuthContext) (result : α)
  deriving Repr

/-- require_auth(f): the decoded Firebase token is an association list (the
uid access raises KeyError when absent, caught by the same except clause as
a verification failure). -/
def require_auth {α : Type} (verify : String → Except String (List (String × String)))
    (req : AuthRequest) (handler : RequestAuthContext → α) : AuthOutcome α :=
  match req.authorization with
  | none => .rejected ⟨[("error", .str "No authorization token provided")], 401⟩
  | some raw =>
      if raw.isEmpty then
        .rejected ⟨[("error", .str "No authorization token provided")], 401⟩
      else
        match verify (stripBearer raw) with
        | .error e =>
            .rejected ⟨[("error", .str "Invalid authorization token"),
                        ("details", .str e)], 401⟩
        | .ok decoded =>
            match alistGet decoded "uid" with
            | none =>
                .rejected ⟨[("error", .str "Invalid authorization token"),
                            ("details", .str "KeyError: uid")], 401⟩
            | some uid =>
                let ctx : RequestAuthContext :=
                  { user_id := uid
                    user_name := (alistGet decoded "name").getD ""
                    user_email := (alistGet decoded "email").getD ""
                    company_id := req.x_company_id.getD "default" }
                .handled ctx (handler ctx)

/-- C4: a request with no Authorization header is rejected with 401 and the
handler never runs (the outcome does not depend on the handler); a request
whose token fails Firebase verification is rejected with 401 without
running the handler; on success the handler runs with user_id the token uid
and company_id the X-Company-ID header defaulting to "default". -/
theorem require_auth_spec {α : Type}
    (verify : String → Except String (List (String × String)))
    (req : AuthRequest) (f g : RequestAuthContext → α) :
    (req.authorization = none →
        require_auth verify req f =
          .rejected ⟨[("error", .str "No authorization token provided")], 401⟩ ∧
        require_auth verify req f = require_auth verify req g) ∧
    (∀ raw e, req.authorization = some raw → raw.isEmpty = false →
        verify (stripBearer raw) = .error e →
        require_auth verify req f =
          .rejected ⟨[("error", .str "Invalid authorization token"),
                      ("details", .str e)], 401⟩ ∧
        require_auth verify req f = require_auth verify req g) ∧
    (∀ raw decoded uid, req.authorization = some raw → raw.isEmpty = false →
        verify (stripBearer raw) = .ok decoded → alistGet decoded "uid" = some uid →
        require_auth verify req f =
          .handled
            { user_id := uid
              user_name := (alistGet decoded "name").getD ""
              user_email := (alistGet decoded "email").getD ""
              company_id := req.x_company_id.getD "default" }
            (f { user_id := uid
                 user_name := (alistGet decoded "name").getD ""
                 user_email := (alistGet decoded "email").getD ""
                 company_id := req.x_company_id.getD "default" })) := by
  refine ⟨?_, ?_, ?_⟩
  · intro h
    constructor <;> simp [require_auth, h]
  · intro raw e hraw hempty hver
    constructor <;> simp [require_auth, hraw, hempty, hver]
  · intro raw decoded uid hraw hempty hver huid
    simp [require_auth, hraw, hempty, hver, huid]

/-- Witness for C4: a successful verification attaches uid and the tenant
header and runs the handler. -/
theorem require_auth_spec_witness :
    require_auth (fun _ => .ok [("uid", "u1")]) ⟨some "Bearer tok", some "acme"⟩
        (fun ctx => ctx.user_id ++ ctx.company_id) =
      .handled ⟨"u1", "", "", "acme"⟩ "u1acme" :=
  (require_auth_spec (fun _ => .ok [("uid", "u1")]) ⟨some "Bearer tok", some "acme"⟩
      (fun ctx => ctx.user_id ++ ctx.company_id)
      (fun ctx => ctx.user_id ++ ctx.company_id)).2.2
    "Bearer tok" [("uid", "u1")] "u1" rfl (by decide) rfl rfl

/-! ## C3: the except-clause responses of the app.py request handlers -/

/-- The response returned by the except clause of each request handler in
app.py, in source order, parameterised by the exception text e (only
submit_standup interpolates it into the body). -/
def appHandlerExceptResponses (e : String) : List (String × HttpResponse) :=
  [   ("update_blocker_priority", ⟨[("success", .bool false), ("error", .str "Failed to update priority")], 500⟩),
   ("analyze_blocker_with_ai", ⟨[("success", .bool false), ("error", .str "Failed to analyze blocker")], 500⟩),
   ("get_teams", ⟨[("success", .bool false), ("error", .str "Failed to fetch teams")], 500⟩),
   ("create_team", ⟨[("success", .bool false), ("error", .str "Failed to create team")], 500⟩),
   ("create_company", ⟨[("success", .bool false), ("error", .str "Failed to create company")], 500⟩),
   ("get_team", ⟨[("success", .bool false), ("error", .str "Failed to fetch team details")], 500⟩),
   ("delete_team", ⟨[("success", .bool false), ("error", .str "Failed to delete team")], 500⟩),
   ("submit_standup", ⟨[("error", .str e)], 500⟩),
   ("get_standups", ⟨[("success", .bool false), ("error", .str "Failed to fetch standups")], 500⟩),
   ("get_dashboard", ⟨[("success", .bool false), ("error", .str "Failed to fetch dashboard data")], 500⟩),
   ("get_sprints", ⟨[("success", .bool false), ("error", .str "Failed to fetch sprints")], 500⟩),
   ("create_sprint", ⟨[("success", .bool false), ("error", .str "Failed to create sprint")], 500⟩),
   ("complete_sprint", ⟨[("success", .bool false), ("error", .str "Failed to complete sprint")], 500⟩),
   ("create_task", ⟨[("success", .bool false), ("error", .str "Failed to create task")], 500⟩),
   ("update_task", ⟨[("success", .bool false), ("error", .str "Failed to update task")], 500⟩),
   ("update_team_member_role", ⟨[("error", .str "Failed to update role")], 500⟩),
   ("delete_task", ⟨[("success", .bool false), ("error", .str "Failed to delete task")], 500⟩),
   ("get_active_blockers_v2", ⟨[("success", .bool false), ("error", .str "Failed to fetch blockers")], 500⟩),
   ("resolve_blocker_v2", ⟨[("success", .bool false), ("error", .str "Failed to resolve blocker")], 500⟩),
   ("update_blocker_priority_v2", ⟨[("success", .bool false), ("error", .str "Failed to update priority")], 500⟩),
   ("analyze_blocker_v2", ⟨[("success", .bool false), ("error", .str "Failed to analyze blocker")], 500⟩),
   ("add_sprint_comment", ⟨[("success", .bool false), ("error", .str "Failed to add comment")], 500⟩),
   ("get_sprint_comments", ⟨[("success", .bool false), ("error", .str "Failed to fetch comments")], 500⟩),
   ("get_retrospectives", ⟨[("success", .bool false), ("error", .str "Failed to fetch retrospectives")], 500⟩),
   ("create_retrospective", ⟨[("success", .bool false), ("error", .str "Failed to create retrospective")], 500⟩),
   ("submit_retrospective_feedback", ⟨[("success", .bool false), ("error", .str "Failed to submit feedback")], 500⟩),
   ("get_team_velocity", ⟨[("success", .bool false), ("error", .str "Failed to fetch velocity data")], 500⟩),
   ("get_sentiment_trends", ⟨[("success", .bool false), ("error", .str "Failed to fetch sentiment trends")], 500⟩),
   ("get_blocker_summary", ⟨[("success", .bool false), ("error", .str "Failed to fetch blocker analytics")], 500⟩),
   ("get_productivity_metrics", ⟨[("success", .bool false), ("error", .str "Failed to fetch productivity metrics")], 500⟩),
   ("get_active_blockers", ⟨[("success", .bool false), ("error", .str "Failed to fetch blockers")], 500⟩),
   ("resolve_blocker", ⟨[("success", .bool false), ("error", .str "Failed to resolve blocker")], 500⟩),
   ("escalate_blocker", ⟨[("success", .bool false), ("error", .str "Failed to escalate blocker")], 500⟩),
   ("get_blocker_analytics", ⟨[("success", .bool false), ("error", .str "Failed to fetch analytics")], 500⟩),
   ("get_team_blocker_summary", ⟨[("success", .bool false), ("error", .str "Failed to fetch summary")], 500⟩),
   ("add_team_member", ⟨[("error", .str "Failed to add team member")], 500⟩),
   ("remove_team_member", ⟨[("error", .str "Failed to remove team member")], 500⟩),
   ("update_member_role", ⟨[("error", .str "Failed to update role")], 500⟩),
   ("join_team", ⟨[("error", .str "Failed to join team")], 500⟩),
   ("get_analytics_dashboard", ⟨[("success", .bool false), ("error", .str "Failed to fetch analytics")], 500⟩)]

/-- The response shape C3 asserts for every handler: a success-false flag, an
error message, and one of the listed statuses. -/
def exceptResponseMatchesClaim (r : HttpResponse) : Bool :=
  r.body.contains ("success", JVal.bool false) &&
  r.body.any (fun kv => kv.1 == "error") &&
  [400, 401, 403, 404, 500, 503].contains r.status

/-- Counterexample to C3: not every handler includes success false in its
exception response; submit_standup returns only the error text with
status 500. -/
theorem handler_except_responses_mismatch :
    ((appHandlerExceptResponses "boom").all
        (fun p => exceptResponseMatchesClaim p.2)) = false := by
  decide

/-- C3 amended: every request handler of app.py answers an exception in its
body with a JSON object that contains an error message and carries status
500 (which is among the statuses the claim lists); all handlers except
submit_standup, update_team_member_role, add_team_member,
remove_team_member, update_member_role and join_team also include
success false. -/
theorem handler_except_responses_amended (e : String) :
    ((appHandlerExceptResponses e).all
        (fun p => p.2.body.any (fun kv => kv.1 == "error") && (p.2.status == 500))) = true ∧
    (((appHandlerExceptResponses e).filter
        (fun p => !(p.2.body.contains ("success", JVal.bool false)))).map Prod.fst =
      ["submit_standup", "update_team_member_role", "add_team_member",
       "remove_team_member", "update_member_role", "join_team"]) := by
  constructor
  · rfl
  · rfl

/-! ## C8: registered routes (all app.route declarations in app.py) -/

/-- Python str.startswith, computed on the character lists. -/
def pyStartsWith (pre s : String) : Bool :=
  pre.toList.isPrefixOf s.toList

/-- Every route registration of app.py, in source order: URL rule and
handler name. -/
def appRoutes : List (String × String) :=
  [   ("/api/blockers/<blocker_id>/priority", "update_blocker_priority"),
   ("/api/blockers/<blocker_id>/analyze", "analyze_blocker_with_ai"),
   ("/health", "railway_health"),
   ("/api/health", "api_health"),
   ("/debug/routes", "list_routes"),
   ("/api/test", "test_endpoint"),
   ("/cors-test", "cors_test"),
   ("/api/teams", "get_teams"),
   ("/api/teams", "create_team"),
   ("/api/companies", "create_company"),
   ("/api/teams/<team_id>", "get_team"),
   ("/api/teams/<team_id>", "delete_team"),
   ("/api/standups", "submit_standup"),
   ("/api/standups", "get_standups"),
   ("/api/dashboard", "get_dashboard"),
   ("/api/sprints", "get_sprints"),
   ("/api/sprints", "create_sprint"),
   ("/api/sprints/<sprint_id>/complete", "complete_sprint"),
   ("/api/submit-standup", "submit_standup_alt"),
   ("/api/tasks", "create_task"),
   ("/api/tasks/<task_id>", "update_task"),
   ("/api/teams/<team_id>/role", "update_team_member_role"),
   ("/api/tasks/<task_id>", "delete_task"),
   ("/blockers/active", "get_active_blockers_v2"),
   ("/blockers/<blocker_id>/resolve", "resolve_blocker_v2"),
   ("/blockers/<blocker_id>/priority", "update_blocker_priority_v2"),
   ("/blockers/<blocker_id>/analyze", "analyze_blocker_v2"),
   ("/api/sprints/<sprint_id>/comments", "add_sprint_comment"),
   ("/api/sprints/<sprint_id>/comments", "get_sprint_comments"),
   ("/api/retrospectives", "get_retrospectives"),
   ("/api/retrospectives", "create_retrospective"),
   ("/api/retrospective-feedback", "submit_retrospective_feedback"),
   ("/api/analytics/team-velocity", "get_team_velocity"),
   ("/api/analytics/sentiment-trends", "get_sentiment_trends"),
   ("/api/analytics/blocker-summary", "get_blocker_summary"),
   ("/api/analytics/productivity-metrics", "get_productivity_metrics"),
   ("/api/blockers/active", "get_active_blockers"),
   ("/api/blockers/<blocker_id>/resolve", "resolve_blocker"),
   ("/api/blockers/<blocker_id>/escalate", "escalate_blocker"),
   ("/api/blockers/analytics", "get_blocker_analytics"),
   ("/api/blockers/team-summary", "get_team_blocker_summary"),
   ("/api/teams/<team_id>/members", "add_team_member"),
   ("/api/teams/<team_id>/members/<member_id>", "remove_team_member"),
   ("/api/teams/<team_id>/members/<member_id>/role", "update_member_role"),
   ("/api/teams/<team_id>/join", "join_team"),
   ("/api/analytics/dashboard", "get_analytics_dashboard")]

/-- The handlers that serve none of the domains C8 enumerates (teams,
sprints, tasks, comments, standups, retrospectives, blockers, analytics):
the health, debug, test and CORS endpoints, plus create_company, which
serves companies only. -/
def nonDomainHandlers : List String :=
  ["railway_health", "api_health", "list_routes", "test_endpoint", "cors_test",
   "create_company"]

/-- The four v2 blocker handlers registered outside the /api/ prefix; each
reads or writes the blockers collection. -/
def nonApiBlockerHandlers : List String :=
  ["get_active_blockers_v2", "resolve_blocker_v2", "update_blocker_priority_v2",
   "analyze_blocker_v2"]

/-- Counterexample to C8: some route serving one of the listed domains is
not registered under /api/ (the v2 blocker endpoints, for example
/blockers/active). -/
theorem api_prefix_mismatch :
    (appRoutes.all (fun r =>
        nonDomainHandlers.contains r.2 || pyStartsWith "/api/" r.1)) = false := by
  decide

/-- C8 amended: every registered endpoint serving teams, sprints, tasks,
comments, standups, retrospectives, blockers or analytics is under /api/
except the four v2 blocker endpoints /blockers/active,
/blockers/(id)/resolve, /blockers/(id)/priority and
/blockers/(id)/analyze. -/
theorem api_prefix_amended :
    (appRoutes.all (fun r =>
        nonDomainHandlers.contains r.2 || nonApiBlockerHandlers.contains r.2 ||
          pyStartsWith "/api/" r.1)) = true ∧
    ((appRoutes.filter (fun r => !pyStartsWith "/api/" r.1)).map Prod.fst =
      ["/health", "/debug/routes", "/cors-test", "/blockers/active",
       "/blockers/<blocker_id>/resolve", "/blockers/<blocker_id>/priority",
       "/blockers/<blocker_id>/analyze"]) := by
  constructor
  · decide
  · decide

/-! ## C9: team membership operations
(create_team, app.py lines 708-767; add_team_member, lines 2939-3004;
remove_team_member, lines 3006-3050; join_team, lines 3093-3129;
leave_team, teams.py lines 369-430) -/

/-- Python str.strip(): drop whitespace from both ends. -/
def pyStrip (s : String) : String :=
  String.mk (((s.toList.dropWhile Char.isWhitespace).reverse.dropWhile
    Char.isWhitespace).reverse)

/-- A team document: the fields the membership operations read and write. -/
structure Team where
  name : String
  description : String
  owner_id : String
  company_id : String
  members : List String
  member_roles : List (String × String)
  member_joined : List (String × String)
  deriving DecidableEq, Repr

/-- Delete one key from a Firestore map field (DELETE_FIELD / Python del). -/
def mapDelete (m : List (String × String)) (k : String) : List (String × String) :=
  m.filter (fun kv => kv.1 != k)

/-- create_team: the team document written for a non-empty stripped name
(an empty name is rejected with 400 before anything is written). -/
def create_team (user_id company_id name description : String) : Option Team :=
  if (pyStrip name).isEmpty then none
  else some
    { name := pyStrip name
      description := description
      owner_id := user_id
      company_id := company_id
      members := [user_id]
      member_roles := [(user_id, "OWNER")]
      member_joined := [] }

/-- remove_team_member(team_id, member_id): owner-only; removing the owner
is rejected with 400; otherwise ArrayRemove drops every occurrence of the
member and the map fields are deleted.  (The enclosing existence check
returns 404 on a missing team without touching any document.) -/
def remove_team_member (team : Team) (requester member_id : String) :
    HttpResponse × Team :=
  if team.owner_id ≠ requester then
    (⟨[("error", .str "Only team owner can remove members")], 403⟩, team)
  else if member_id = team.owner_id then
    (⟨[("error", .str "Cannot remove team owner")], 400⟩, team)
  else
    (⟨[("success", .bool true), ("message", .str "Member removed successfully")], 200⟩,
     { team with
        members := team.members.filter (fun m => m != member_id)
        member_roles := mapDelete team.member_roles member_id
        member_joined := mapDelete team.member_joined member_id })

/-- leave_team (teams.py): non-members are rejected with 400, the owner is
rejected with 400; otherwise list.remove drops the first occurrence and the
map entries are deleted. -/
def leave_team (team : Team) (user_id : String) : HttpResponse × Team :=
  if user_id ∉ team.members then
    (⟨[("success", .bool false), ("error", .str "You are not a member of this team")], 400⟩,
     team)
  else if team.owner_id = user_id then
    (⟨[("success", .bool false),
       ("error", .str "Team owner cannot leave team. Transfer ownership or delete the team.")],
      400⟩, team)
  else
    (⟨[("success", .bool true), ("message", .str "Successfully left team")], 200⟩,
     { team with
        members := team.members.erase user_id
        member_roles := mapDelete team.member_roles user_id
        member_joined := mapDelete team.member_joined user_id })

/-- add_team_member(team_id): requester must hold role OWNER or MANAGER,
an existing member is rejected, otherwise ArrayUnion appends the member.
(The email lookup of the member and the missing-team and missing-email
rejections return 4xx without touching the team document and are elided:
member_id stands for the uid the lookup resolved.) -/
def add_team_member (team : Team) (requester member_id member_role : String)
    (now : String) : HttpResponse × Team :=
  if (alistGet team.member_roles requester).getD "DEVELOPER" ∉ (["OWNER", "MANAGER"] : List String) then
    (⟨[("error", .str "Permission denied")], 403⟩, team)
  else if member_id ∈ team.members then
    (⟨[("error", .str "User is already a team member")], 400⟩, team)
  else
    (⟨[("success", .bool true), ("message", .str "Member added successfully")], 200⟩,
     { team with
        members := team.members ++ [member_id]
        member_roles := alistSet team.member_roles member_id member_role
        member_joined := alistSet team.member_joined member_id now })

/-- join_team(team_id): an existing member is rejected, otherwise ArrayUnion
appends the user with role DEVELOPER. -/
def join_team (team : Team) (user_id : String) (now : String) :
    HttpResponse × Team :=
  if user_id ∈ team.members then
    (⟨[("error", .str "Already a team member")], 400⟩, team)
  else
    (⟨[("success", .bool true), ("message", .str "Successfully joined team")], 200⟩,
     { team with
        members := team.members ++ [user_id]
        member_roles := alistSet team.member_roles user_id "DEVELOPER"
        member_joined := alistSet team.member_joined user_id now })

/-- The team states reachable from creation through the membership-changing
operations. -/
inductive ReachableTeam : Team → Prop where
  | created (user_id company_id name description : String) (t : Team)
      (h : create_team user_id company_id name description = some t) : ReachableTeam t
  | removed (t : Team) (requester member_id : String) (ht : ReachableTeam t) :
      ReachableTeam (remove_team_member t requester member_id).2
  | left (t : Team) (user_id : String) (ht : ReachableTeam t) :
      ReachableTeam (leave_team t user_id).2
  | added (t : Team) (requester member_id member_role now : String) (ht : ReachableTeam t) :
      ReachableTeam (add_team_member t requester member_id member_role now).2
  | joined (t : Team) (user_id now : String) (ht : ReachableTeam t) :
      ReachableTeam (join_team t user_id now).2

/-- C9: a created team has its owner among the members with role OWNER;
remove_team_member never removes the owner (status 400 when the owner is
the removal target and the requester is the owner, team unchanged either
way); leave_team rejects the owner with status 400 and an unchanged team;
hence in every reachable team state the owner is a member. -/
theorem owner_membership_invariant :
    (∀ user_id company_id name description t,
        create_team user_id company_id name description = some t →
        t.owner_id = user_id ∧ user_id ∈ t.members ∧
          alistGet t.member_roles user_id = some "OWNER") ∧
    (∀ t requester, (remove_team_member t requester t.owner_id).2 = t ∧
        (requester = t.owner_id →
          (remove_team_member t requester t.owner_id).1.status = 400)) ∧
    (∀ t : Team, (leave_team t t.owner_id).2 = t ∧
        (leave_team t t.owner_id).1.status = 400) ∧
    (∀ t, ReachableTeam t → t.owner_id ∈ t.members) := by
  refine ⟨?_, ?_, ?_, ?_⟩
  · intro user_id company_id name description t h
    unfold create_team at h
    by_cases hn : (pyStrip name).isEmpty
    · simp [hn] at h
    · simp only [hn, Bool.false_eq_true, if_false, Option.some.injEq] at h
      subst h
      exact ⟨rfl, List.mem_singleton.mpr rfl, by simp [alistGet]⟩
  · intro t requester
    constructor
    · unfold remove_team_member
      split
      · rfl
      · split
        · rfl
        · rename_i h1 h2
          exact absurd rfl h2
    · intro hreq
      unfold remove_team_member
      split
      · rename_i h1
        exact absurd hreq.symm h1
      · split
        · rfl
        · rename_i h1 h2
          exact absurd rfl h2
  · intro t
    constructor
    · unfold leave_team
      split
      · rfl
      · split
        · rfl
        · rename_i h1 h2
          exact absurd rfl h2
    · unfold leave_team
      split
      · rfl
      · split
        · rfl
        · rename_i h1 h2
          exact absurd rfl h2
  · intro t ht
    induction ht with
    | created user_id company_id name description t h =>
        unfold create_team at h
        by_cases hn : (pyStrip name).isEmpty
        · simp [hn] at h
        · simp only [hn, Bool.false_eq_true, if_false, Option.some.injEq] at h
          subst h
          exact List.mem_singleton.mpr rfl
    | removed t requester member_id ht ih =>
        unfold remove_team_member
        split
        · exact ih
        · split
          · exact ih
          · rename_i h1 h2
            show t.owner_id ∈ t.members.filter (fun m => m != member_id)
            refine List.mem_filter.mpr ⟨ih, ?_⟩
            exact bne_iff_ne.mpr (fun hc => h2 hc.symm)
    | left t user_id ht ih =>
        unfold leave_team
        split
        · exact ih
        · split
          · exact ih
          · rename_i h1 h2
            show t.owner_id ∈ t.members.erase user_id
            exact (List.mem_erase_of_ne h2).mpr ih
    | added t requester member_id member_role now ht ih =>
        unfold add_team_member
        split
        · exact ih
        · split
          · exact ih
          · show t.owner_id ∈ t.members ++ [member_id]
            exact List.mem_append_left _ ih
    | joined t user_id now ht ih =>
        unfold join_team
        split
        · exact ih
        · show t.owner_id ∈ t.members ++ [user_id]
          exact List.mem_append_left _ ih

/-- Witness for C9: a freshly created team and a rejected owner departure. -/
theorem owner_membership_invariant_witness :
    (create_team "u1" "acme" "Alpha" "" =
      some ⟨"Alpha", "", "u1", "acme", ["u1"], [("u1", "OWNER")], []⟩) ∧
    "u1" ∈ (⟨"Alpha", "", "u1", "acme", ["u1"], [("u1", "OWNER")], []⟩ : Team).members ∧
    (leave_team ⟨"Alpha", "", "u1", "acme", ["u1"], [("u1", "OWNER")], []⟩ "u1").1.status = 400 := by
  have hc : create_team "u1" "acme" "Alpha" "" =
      some ⟨"Alpha", "", "u1", "acme", ["u1"], [("u1", "OWNER")], []⟩ := by
    unfold create_team pyStrip
    simp
    decide
  refine ⟨hc, ?_, ?_⟩
  · exact (owner_membership_invariant.1 "u1" "acme" "Alpha" ""
      ⟨"Alpha", "", "u1", "acme", ["u1"], [("u1", "OWNER")], []⟩ hc).2.1
  · exact (owner_membership_invariant.2.2.1
      ⟨"Alpha", "", "u1", "acme", ["u1"], [("u1", "OWNER")], []⟩).2

/-! ## C10: update_task (app.py lines 1678-1726) -/

/-- Lookup skips a head whose key differs. -/
theorem alistGet_cons_ne {β : Type} (kv : String × β) (rest : List (String × β))
    (k : String) (h : (kv.1 == k) = false) :
    alistGet (kv :: rest) k = alistGet rest k := by
  simp [alistGet, List.find?_cons, h]

/-- Lookup returns a head whose key matches. -/
theorem alistGet_cons_eq {β : Type} (kv : String × β) (rest : List (String × β))
    (k : String) (h : (kv.1 == k) = true) :
    alistGet (kv :: rest) k = some kv.2 := by
  simp [alistGet, List.find?_cons, h]

/-- get-after-set on association lists. -/
theorem alistGet_alistSet {β : Type} (l : List (String × β)) (k k2 : String) (v : β) :
    alistGet (alistSet l k v) k2 = if k2 = k then some v else alistGet l k2 := by
  induction l with
  | nil =>
      by_cases h : k2 = k
      · simp [alistSet, alistGet, h]
      · have hb : (k == k2) = false := by
          simp only [beq_eq_false_iff_ne, ne_eq]
          exact fun he => h he.symm
        show alistGet [(k, v)] k2 = if k2 = k then some v else alistGet [] k2
        rw [alistGet_cons_ne (k, v) [] k2 hb, if_neg h]
  | cons kv rest ih =>
      by_cases h1 : kv.1 = k
      · have hb1 : (kv.1 == k) = true := beq_iff_eq.mpr h1
        have hset : alistSet (kv :: rest) k v = (k, v) :: rest := by
          simp [alistSet, hb1]
        rw [hset]
        by_cases h2 : k2 = k
        · rw [if_pos h2]
          exact alistGet_cons_eq (k, v) rest k2 (beq_iff_eq.mpr (h2.symm))
        · have hbk : (k == k2) = false := by
            simp only [beq_eq_false_iff_ne, ne_eq]
            exact fun he => h2 he.symm
          have hbkv : (kv.1 == k2) = false := by
            rw [h1]
            exact hbk
          rw [if_neg h2, alistGet_cons_ne (k, v) rest k2 hbk,
            alistGet_cons_ne kv rest k2 hbkv]
      · have hb1 : (kv.1 == k) = false := by simp [beq_eq_false_iff_ne, h1]
        have hset : alistSet (kv :: rest) k v = kv :: alistSet rest k v := by
          simp [alistSet, hb1]
        rw [hset]
        by_cases h3 : kv.1 = k2
        · have hb3 : (kv.1 == k2) = true := beq_iff_eq.mpr h3
          have h4 : ¬ k2 = k := by
            intro he
            exact h1 (h3.symm ▸ he ▸ rfl)
          rw [alistGet_cons_eq kv (alistSet rest k v) k2 hb3, if_neg h4,
            alistGet_cons_eq kv rest k2 hb3]
        · have hb3 : (kv.1 == k2) = false := by simp [beq_eq_false_iff_ne, h3]
          rw [alistGet_cons_ne kv (alistSet rest k v) k2 hb3, ih,
            alistGet_cons_ne kv rest k2 hb3]

/-- Firestore update(update_data): set every given field in the document. -/
def firestoreUpdate (doc upd : List (String × JVal)) : List (String × JVal) :=
  upd.foldl (fun acc kv => alistSet acc kv.1 kv.2) doc

/-- Fields not named in the update are unchanged. -/
theorem alistGet_firestoreUpdate_not_mem (upd : List (String × JVal))
    (doc : List (String × JVal)) (f : String) (h : f ∉ upd.map Prod.fst) :
    alistGet (firestoreUpdate doc upd) f = alistGet doc f := by
  induction upd generalizing doc with
  | nil => rfl
  | cons kv rest ih =>
      have hf1 : ¬ f = kv.1 := by
        intro he
        exact h (by simp [he])
      have hfr : f ∉ rest.map Prod.fst := by
        intro he
        exact h (by simp [he])
      show alistGet (firestoreUpdate (alistSet doc kv.1 kv.2) rest) f = alistGet doc f
      rw [ih (alistSet doc kv.1 kv.2) hfr, alistGet_alistSet, if_neg hf1]

/-- The allowed_fields list of update_task. -/
def allowed_fields : List String := ["title", "assignee", "status", "estimate"]

/-- The update_data dict built by update_task: updated_at plus every allowed
field present in the request payload. -/
def updateData (payload : List (String × JVal)) (now : String) :
    List (String × JVal) :=
  ("updated_at", JVal.str now) ::
    allowed_fields.filterMap (fun f => (alistGet payload f).map (fun v => (f, v)))

/-- update_task(task_id): 404 when the task does not exist (no document
modified); otherwise the task document is updated with update_data.  The
socket emission and the success response echoing the updated task do not
touch the store. -/
def update_task (tasks : List (String × List (String × JVal))) (task_id : String)
    (payload : List (String × JVal)) (now : String) :
    HttpResponse × List (String × List (String × JVal)) :=
  match alistGet tasks task_id with
  | none => (⟨[("error", .str "Task not found")], 404⟩, tasks)
  | some doc =>
      (⟨[("success", .bool true)], 200⟩,
       tasks.map (fun kv =>
         if kv.1 == task_id then (kv.1, firestoreUpdate doc (updateData payload now)) else kv))

/-- Keys of the filterMap part of update_data come from allowed_fields and
are present in the payload. -/
theorem mem_updateData_tail {payload : List (String × JVal)} {f : String} {v : JVal}
    (h : (f, v) ∈ allowed_fields.filterMap
      (fun g => (alistGet payload g).map (fun w => (g, w)))) :
    f ∈ allowed_fields ∧ alistGet payload f = some v := by
  rcases List.mem_filterMap.mp h with ⟨g, hg, he⟩
  cases hq : alistGet payload g with
  | none =>
      rw [hq] at he
      exact absurd he (by simp)
  | some w =>
      rw [hq] at he
      have he2 : (g, w) = (f, v) := by
        apply Option.some.inj
        simpa using he
      have hgf : g = f := congrArg Prod.fst he2
      have hwv : w = v := congrArg Prod.snd he2
      subst hgf
      subst hwv
      exact ⟨hg, hq⟩

/-- Looking up any other task id is unaffected by the update map. -/
theorem alistGet_map_update_ne (tasks : List (String × List (String × JVal)))
    (task_id id2 : String) (nd : List (String × JVal)) (h : id2 ≠ task_id) :
    alistGet (tasks.map (fun kv => if kv.1 == task_id then (kv.1, nd) else kv)) id2 =
      alistGet tasks id2 := by
  induction tasks with
  | nil => rfl
  | cons kv rest ih =>
      rw [List.map_cons]
      by_cases h2 : kv.1 = id2
      · have hb2 : (kv.1 == id2) = true := beq_iff_eq.mpr h2
        have hb1 : (kv.1 == task_id) = false := by
          simp only [beq_eq_false_iff_ne, ne_eq]
          intro he
          exact h (h2 ▸ he)
        rw [show (if kv.1 == task_id then (kv.1, nd) else kv) = kv from by simp [hb1]]
        rw [alistGet_cons_eq kv _ id2 hb2, alistGet_cons_eq kv rest id2 hb2]
      · have hb2 : (kv.1 == id2) = false := by simp [beq_eq_false_iff_ne, h2]
        have hkey : ((if kv.1 == task_id then (kv.1, nd) else kv)).1 = kv.1 := by
          split <;> rfl
        have hb2b : (((if kv.1 == task_id then (kv.1, nd) else kv)).1 == id2) = false := by
          rw [hkey]
          exact hb2
        rw [alistGet_cons_ne _ _ id2 hb2b, alistGet_cons_ne kv rest id2 hb2]
        exact ih

/-- Looking up the updated task id returns the new document whenever the id
was present. -/
theorem alistGet_map_update_self (tasks : List (String × List (String × JVal)))
    (task_id : String) (nd doc : List (String × JVal))
    (h : alistGet tasks task_id = some doc) :
    alistGet (tasks.map (fun kv => if kv.1 == task_id then (kv.1, nd) else kv)) task_id =
      some nd := by
  induction tasks with
  | nil => exact absurd h (by simp [alistGet])
  | cons kv rest ih =>
      rw [List.map_cons]
      by_cases h1 : kv.1 = task_id
      · have hb1 : (kv.1 == task_id) = true := beq_iff_eq.mpr h1
        rw [show (if kv.1 == task_id then (kv.1, nd) else kv) = (kv.1, nd) from by simp [hb1]]
        exact alistGet_cons_eq (kv.1, nd) _ task_id hb1
      · have hb1 : (kv.1 == task_id) = false := by simp [beq_eq_false_iff_ne, h1]
        have h' : alistGet rest task_id = some doc := by
          rwa [alistGet_cons_ne kv rest task_id hb1] at h
        rw [show (if kv.1 == task_id then (kv.1, nd) else kv) = kv from by simp [hb1]]
        rw [alistGet_cons_ne kv _ task_id hb1]
        exact ih h'

/-- C10: update_task answers 404 and modifies nothing when the task is
missing; otherwise it changes at most title, assignee, status, estimate and
updated_at of that one task: every other field keeps its value, every
allowed field absent from the payload keeps its value, and every other task
document is untouched. -/
theorem update_task_frame (tasks : List (String × List (String × JVal)))
    (task_id : String) (payload : List (String × JVal)) (now : String) :
    (alistGet tasks task_id = none →
        update_task tasks task_id payload now =
          (⟨[("error", .str "Task not found")], 404⟩, tasks)) ∧
    (∀ doc, alistGet tasks task_id = some doc →
        (∀ f, f ∉ allowed_fields → f ≠ "updated_at" →
            alistGet ((alistGet (update_task tasks task_id payload now).2 task_id).getD []) f =
              alistGet doc f) ∧
        (∀ f, f ∈ allowed_fields → alistGet payload f = none →
            alistGet ((alistGet (update_task tasks task_id payload now).2 task_id).getD []) f =
              alistGet doc f) ∧
        (∀ id2, id2 ≠ task_id →
            alistGet (update_task tasks task_id payload now).2 id2 = alistGet tasks id2)) := by
  constructor
  · intro h
    simp [update_task, h]
  · intro doc hdoc
    have hres : (update_task tasks task_id payload now).2 =
        tasks.map (fun kv =>
          if kv.1 == task_id then (kv.1, firestoreUpdate doc (updateData payload now)) else kv) := by
      simp [update_task, hdoc]
    have hself : alistGet (update_task tasks task_id payload now).2 task_id =
        some (firestoreUpdate doc (updateData payload now)) := by
      rw [hres]
      exact alistGet_map_update_self tasks task_id _ doc hdoc
    refine ⟨?_, ?_, ?_⟩
    · intro f hfa hfu
      rw [hself]
      simp only [Option.getD_some]
      apply alistGet_firestoreUpdate_not_mem
      intro hmem
      simp only [updateData, List.map_cons, List.mem_cons] at hmem
      rcases hmem with h1 | h2
      · exact hfu h1
      · rcases List.mem_map.mp h2 with ⟨⟨g, w⟩, hgw, hg⟩
        rcases mem_updateData_tail hgw with ⟨hga, _⟩
        have hg' : g = f := hg
        exact hfa (hg' ▸ hga)
    · intro f hfa hfp
      rw [hself]
      simp only [Option.getD_some]
      apply alistGet_firestoreUpdate_not_mem
      intro hmem
      simp only [updateData, List.map_cons, List.mem_cons] at hmem
      rcases hmem with h1 | h2
      · revert hfa
        rw [h1]
        decide
      · rcases List.mem_map.mp h2 with ⟨⟨g, w⟩, hgw, hg⟩
        rcases mem_updateData_tail hgw with ⟨_, hsome⟩
        have hg' : g = f := hg
        rw [hg'] at hsome
        rw [hfp] at hsome
        exact Option.noConfusion hsome
    · intro id2 hid
      rw [hres]
      exact alistGet_map_update_ne tasks task_id id2 _ hid

/-- Witness for C10: updating the status of a stored task leaves its
sprint_id untouched. -/
theorem update_task_frame_witness :
    alistGet ((alistGet (update_task
        [("t1", [("title", JVal.str "old"), ("sprint_id", JVal.str "s1")])]
        "t1" [("status", JVal.str "done")] "2025-01-01").2 "t1").getD []) "sprint_id" =
      alistGet [("title", JVal.str "old"), ("sprint_id", JVal.str "s1")] "sprint_id" :=
  ((update_task_frame [("t1", [("title", JVal.str "old"), ("sprint_id", JVal.str "s1")])]
      "t1" [("status", JVal.str "done")] "2025-01-01").2
      [("title", JVal.str "old"), ("sprint_id", JVal.str "s1")] (by decide)).1
    "sprint_id" (by decide) (by decide)

end Upstand
